import Mathlib

/-!
Shallow embedding of `src/WeddingBot.py` (WeddingBot, a Telegram wedding
planning bot).  Text content that ends up in files is modelled as `List Char`
(Python strings are sequences of characters); messages built for chat are
modelled as `String`.  Python `//` and `%` on integers are floor division and
a remainder with the sign of the divisor; for the positive divisors used by
the code they coincide with `Int.fdiv` and `Int.emod`, which the embedding
uses throughout.
-/

namespace WeddingBot

/-! ### Message counter (`MESSAGE_COUNTER`, `track_messages`, lines 30 and 129-137)

`track_messages` increments the global counter, and when it reaches 20 it
resets the counter to 0 and sends one quote to the chat.  The returned `Bool`
records whether a quote message was sent during the invocation. -/

def track_messages (counter : Nat) : Nat × Bool :=
  let counter := counter + 1
  if counter ≥ 20 then (0, true) else (counter, false)

/-- Process `n` non-command text messages starting from counter 0 with no
resets in between; returns the final counter and how many quotes were sent. -/
def runMessages : Nat → Nat × Nat
  | 0 => (0, 0)
  | n + 1 =>
    let prev := runMessages n
    let step := track_messages prev.1
    (step.1, prev.2 + (if step.2 then 1 else 0))

/-! ### Quote fetching (`get_quote`, lines 110-120)

The outcome of `requests.get` and of the subsequent JSON processing is the
input of the embedded function.  `.exn` is an exception raised by
`requests.get` itself; `.malformed` is a body on which `.json()` raises;
a missing `q` or `a` key is an `Option` that is `none`; an empty array makes
`quote_json[0]` raise.  All exceptions inside the `try` are caught by the
`except` clause, which logs the error (the `Bool` in the result) and returns
the second fallback string.  A non-200 status returns the first fallback
string without logging. -/

structure QuoteItem where
  q : Option String
  a : Option String

inductive JsonBody
  | malformed
  | array (items : List QuoteItem)

inductive HttpOutcome
  | exn
  | response (status : Nat) (body : JsonBody)

/-- The body of the `try` block: `.error` means a Python exception escaped. -/
def get_quote_attempt : HttpOutcome → Except Unit String
  | .exn => .error ()
  | .response status body =>
    if status = 200 then
      match body with
      | .malformed => .error ()
      | .array [] => .error ()
      | .array (item :: _) =>
        match item.q, item.a with
        | some q, some a => .ok (q ++ " — " ++ a)
        | _, _ => .error ()
    else
      .ok "Sorry, I couldn't fetch a quote at the moment."

/-- `get_quote`: the string returned to the caller, paired with whether
`logger.error` was called (only the `except` clause logs). -/
def get_quote (r : HttpOutcome) : String × Bool :=
  match get_quote_attempt r with
  | .ok s => (s, false)
  | .error _ => ("Sorry, something went wrong while fetching the quote.", true)

/-! ### Dates and the countdown (`WEDDING_DATE`, `calculate_days_until`,
`auto_post_countdown`, lines 27 and 268-298)

A `datetime` is modelled at second granularity.  `daysFromCivil` is the
standard civil-from-date rata-die computation (days since 1970-01-01 of a
proleptic Gregorian date), which is what Python's `datetime` subtraction is
defined over.  `timedelta` normalisation makes `delta.days` the floor of the
difference in days and `delta.seconds` the nonnegative remainder, i.e.
`Int.fdiv`/`Int.emod` by 86400. -/

structure PyDateTime where
  year : Int
  month : Int
  day : Int
  hour : Int
  minute : Int
  second : Int

/-- Days since 1970-01-01 of the proleptic Gregorian date y-m-d. -/
def daysFromCivil (y m d : Int) : Int :=
  let y := if m ≤ 2 then y - 1 else y
  let era := y.fdiv 400
  let yoe := y - era * 400
  let mp := (m + 9).emod 12
  let doy := (153 * mp + 2).fdiv 5 + d - 1
  let doe := yoe * 365 + yoe.fdiv 4 - yoe.fdiv 100 + doy
  era * 146097 + doe - 719468

/-- Seconds since 1970-01-01 00:00:00 of a datetime. -/
def toSecs (t : PyDateTime) : Int :=
  daysFromCivil t.year t.month t.day * 86400
    + t.hour * 3600 + t.minute * 60 + t.second

/-- `datetime.weekday()`: Monday = 0 (1970-01-01 was a Thursday, = 3). -/
def weekday (t : PyDateTime) : Int :=
  (daysFromCivil t.year t.month t.day + 3).emod 7

/-- `WEDDING_DATE = datetime(2026, 12, 12)` (line 27). -/
def WEDDING_DATE : PyDateTime := ⟨2026, 12, 12, 0, 0, 0⟩

/-- The `days_remaining`, `hours_remaining` and `minutes_remaining` values of
`calculate_days_until` evaluated at `now`:
`delta = WEDDING_DATE - now`, `days = delta.days`,
`hours = delta.seconds // 3600`, `minutes = (delta.seconds % 3600) // 60`. -/
def countdown_components (now : PyDateTime) : Int × Int × Int :=
  let diff := toSecs WEDDING_DATE - toSecs now
  let days_remaining := diff.fdiv 86400
  let seconds_remaining := diff.emod 86400
  (days_remaining, seconds_remaining.fdiv 3600, (seconds_remaining.emod 3600).fdiv 60)

/-- `calculate_days_until` (lines 268-277): returns `days_remaining` and the
countdown message. -/
def calculate_days_until (now : PyDateTime) : Int × String :=
  let c := countdown_components now
  (c.1, "The wedding is in " ++ toString c.1 ++ " days, " ++ toString c.2.1
    ++ " hours, and " ++ toString c.2.2 ++ " minutes!")

/-- The hard-coded destination chat of `auto_post_countdown` (line 283). -/
def schedulerChatId : Int := -4530637343

/-- `auto_post_countdown` (lines 280-298): `some (chat, text)` when a message
is sent on this invocation, `none` when not. -/
def auto_post_countdown (now : PyDateTime) : Option (Int × String) :=
  let r := calculate_days_until now
  let days_remaining := r.1
  let countdown_message := r.2
  if days_remaining > 30 then
    if now.day = 1 then some (schedulerChatId, countdown_message) else none
  else if days_remaining > 7 then
    if weekday now = 0 then some (schedulerChatId, countdown_message) else none
  else
    some (schedulerChatId, countdown_message)

/-! ### The two list files (`get_song_artist` lines 157-173, `get_activity`
lines 183-200, `display_lists` lines 81-99)

File contents are sequences of characters.  The dialog handlers open the file
in append mode and write one formatted chunk ending in a newline. -/

/-- The chunk written by `get_song_artist`: `f"{song_name} - {artist_name}\n"`. -/
def songEntry (title artist : List Char) : List Char :=
  title ++ " - ".data ++ artist ++ ['\n']

/-- The chunk written by `get_activity`: `f"{activity}\n"`. -/
def activityEntry (activity : List Char) : List Char :=
  activity ++ ['\n']

/-- The song file after a sequence of completed song dialogs. -/
def addSongs (f : List Char) : List (List Char × List Char) → List Char
  | [] => f
  | (t, a) :: rest => addSongs (f ++ songEntry t a) rest

/-- The activity file after a sequence of completed activity dialogs. -/
def addActivities (f : List Char) : List (List Char) → List Char
  | [] => f
  | x :: rest => addActivities (f ++ activityEntry x) rest

/-- One step of a left-to-right line scanner: finished lines so far and the
current unterminated line. -/
def lineStep (st : List (List Char) × List Char) (c : Char) :
    List (List Char) × List Char :=
  if c = '\n' then (st.1 ++ [st.2], []) else (st.1, st.2 ++ [c])

def scanLines (cs : List Char) : List (List Char) × List Char :=
  cs.foldl lineStep ([], [])

/-- The lines of a text file: newline-terminated segments, plus a final
unterminated segment when the file does not end in a newline. -/
def linesOf (cs : List Char) : List (List Char) :=
  let st := scanLines cs
  if st.2 = [] then st.1 else st.1 ++ [st.2]

/-- A file is line-complete when it is empty or ends in a newline (every file
this system writes is, since each written chunk ends in `'\n'`). -/
def lineComplete (cs : List Char) : Prop :=
  (scanLines cs).2 = []

instance (cs : List Char) : Decidable (lineComplete cs) := by
  unfold lineComplete; infer_instance

/-- The characters Python `str.strip()` removes: exactly those for which
`str.isspace()` holds (Unicode `White_Space` plus the bidirectional classes
WS, B and S): U+0009-U+000D, U+001C-U+001F, U+0020, U+0085, U+00A0, U+1680,
U+2000-U+200A, U+2028, U+2029, U+202F, U+205F and U+3000. -/
def pyWs (c : Char) : Bool :=
  let n := c.toNat
  (0x09 ≤ n && n ≤ 0x0d) || (0x1c ≤ n && n ≤ 0x1f) || n = 0x20
    || n = 0x85 || n = 0xa0 || n = 0x1680 || (0x2000 ≤ n && n ≤ 0x200a)
    || n = 0x2028 || n = 0x2029 || n = 0x202f || n = 0x205f || n = 0x3000

/-- Python `str.strip()`. -/
def pyStrip (s : List Char) : List Char :=
  ((s.dropWhile pyWs).reverse.dropWhile pyWs).reverse

/-- `display_lists` (lines 81-99).  The inputs are the states of the two
files, `none` when the file does not exist.  The Python
`file.read().strip() or "No songs available."` keeps the stripped content
unless it is empty. -/
def display_lists (songFile activityFile : Option (List Char)) : List Char :=
  let song_list :=
    match songFile with
    | none => "No songs available.".data
    | some s =>
      let t := pyStrip s
      if t = [] then "No songs available.".data else t
  let activity_list :=
    match activityFile with
    | none => "No activities available.".data
    | some s =>
      let t := pyStrip s
      if t = [] then "No activities available.".data else t
  "Song List:\n".data ++ song_list
    ++ "\n\n-----\n\nActivity List:\n".data ++ activity_list

/-- What the specification's words claim for `display_lists`: the file's
content included verbatim (no stripping), with the same sentinels and
separator.  Used only to compare against the embedded `display_lists`. -/
def display_lists_claimed (songFile activityFile : Option (List Char)) : List Char :=
  let song_list :=
    match songFile with
    | none => "No songs available.".data
    | some s => if s = [] then "No songs available.".data else s
  let activity_list :=
    match activityFile with
    | none => "No activities available.".data
    | some s => if s = [] then "No activities available.".data else s
  "Song List:\n".data ++ song_list
    ++ "\n\n-----\n\nActivity List:\n".data ++ activity_list

/-! ### The system as a whole (handlers registered in `__init__`, lines 43-78)

One state for the parts of the world this code mutates: the two files and the
global message counter.  Each handler of the bot is one operation; handlers
that only send chat messages leave the state unchanged. -/

structure BotState where
  songFile : List Char
  activityFile : List Char
  counter : Nat

inductive Op
  | startCmd
  | countdownCmd
  | faqCmd
  | quoteCmd
  | displayListsCmd
  | songSubmit (title artist : List Char)
  | activitySubmit (activity : List Char)
  | textMessage
  | autoPost

/-- The effect of one handler invocation on the mutable state. -/
def applyOp (s : BotState) : Op → BotState
  | .startCmd => s
  | .countdownCmd => s
  | .faqCmd => s
  | .quoteCmd => s
  | .displayListsCmd => s
  | .songSubmit t a => { s with songFile := s.songFile ++ songEntry t a }
  | .activitySubmit x => { s with activityFile := s.activityFile ++ activityEntry x }
  | .textMessage => { s with counter := (track_messages s.counter).1 }
  | .autoPost => s

def applyOps (s : BotState) : List Op → BotState
  | [] => s
  | op :: rest => applyOps (applyOp s op) rest

/-! ## Theorems -/

/-- C1: starting from a counter value of 0, after exactly 20 non-command text
messages processed by `track_messages` with no resets in between, a quote has
been sent exactly once and the counter is back to 0; after 19 messages the
counter is 19 and no quote has been sent. -/
theorem quote_every_twenty_messages :
    runMessages 20 = (0, 1) ∧ runMessages 19 = (19, 0) := by
  decide

/-- C10: the counter stays in 0..19 after every completed invocation of
`track_messages`: from any counter value one invocation lands in 0..19, and
hence from the initial value 0 every number of processed messages leaves the
counter in 0..19 (the lower bound is the type). -/
theorem counter_range_invariant :
    (∀ c : Nat, (track_messages c).1 ≤ 19)
    ∧ (∀ n : Nat, (runMessages n).1 ≤ 19) := by
  have h : ∀ c : Nat, (track_messages c).1 ≤ 19 := by
    intro c
    unfold track_messages
    by_cases hc : c + 1 ≥ 20
    · simp [hc]
    · simp only [if_neg hc]
      omega
  refine ⟨h, ?_⟩
  intro n
  induction n with
  | zero => decide
  | succ n _ => exact h (runMessages n).1

/-- C6: `calculate_days_until` computes days, hours and minutes to the fixed
wedding date 2026-12-12 by integer truncation; at now = 2026-12-02 00:00 it
reports 10 days, 0 hours and 0 minutes, and at now = 2026-12-02 01:30 it
reports 9 days, 22 hours and 30 minutes. -/
theorem countdown_truncation :
    calculate_days_until ⟨2026, 12, 2, 0, 0, 0⟩
      = (10, "The wedding is in 10 days, 0 hours, and 0 minutes!")
    ∧ calculate_days_until ⟨2026, 12, 2, 1, 30, 0⟩
      = (9, "The wedding is in 9 days, 22 hours, and 30 minutes!") := by
  constructor <;> rfl

/-- C7 counterexample: on a non-200 status, `get_quote` returns the fixed
fallback string but does NOT log the failure (`logger.error` runs only in the
`except` clause), contradicting the claim that the failure is logged on every
non-200 status. -/
theorem get_quote_non200_not_logged :
    (get_quote (.response 404 (.array []))).1
        = "Sorry, I couldn't fetch a quote at the moment."
    ∧ ¬ ((get_quote (.response 404 (.array []))).2 = true) := by
  decide

/-- C7 (amended): on a non-200 status `get_quote` returns the first fixed
fallback string without logging; on any exception (network, parse, empty
array, missing key) it returns the second fixed fallback string and logs the
failure; no error propagates to callers; on a 200 response with a well-formed
body it returns the quote and author of the first array element. -/
theorem get_quote_error_handling :
    (∀ (status : Nat) (body : JsonBody), status ≠ 200 →
      get_quote (.response status body)
        = ("Sorry, I couldn't fetch a quote at the moment.", false))
    ∧ get_quote .exn
        = ("Sorry, something went wrong while fetching the quote.", true)
    ∧ get_quote (.response 200 .malformed)
        = ("Sorry, something went wrong while fetching the quote.", true)
    ∧ get_quote (.response 200 (.array []))
        = ("Sorry, something went wrong while fetching the quote.", true)
    ∧ (∀ (q a : String) (rest : List QuoteItem),
        get_quote (.response 200 (.array (⟨some q, some a⟩ :: rest)))
          = (q ++ " — " ++ a, false))
    ∧ (∀ (item : QuoteItem) (rest : List QuoteItem),
        item.q = none ∨ item.a = none →
        get_quote (.response 200 (.array (item :: rest)))
          = ("Sorry, something went wrong while fetching the quote.", true)) := by
  refine ⟨?_, rfl, rfl, rfl, ?_, ?_⟩
  · intro status body hs
    simp [get_quote, get_quote_attempt, hs]
  · intro q a rest
    rfl
  · intro item rest hna
    obtain ⟨q, a⟩ := item
    rcases hna with h | h <;> simp_all [get_quote, get_quote_attempt]

theorem get_quote_error_handling_witness :
    get_quote (.response 503 .malformed)
      = ("Sorry, I couldn't fetch a quote at the moment.", false)
    ∧ get_quote (.response 200 (.array [⟨none, some "A"⟩]))
      = ("Sorry, something went wrong while fetching the quote.", true) :=
  ⟨get_quote_error_handling.1 503 .malformed (by decide),
   get_quote_error_handling.2.2.2.2.2 ⟨none, some "A"⟩ [] (Or.inl rfl)⟩

/-- C5: `auto_post_countdown` posts exactly on the 1st of the month when more
than 30 days remain, exactly on Mondays when more than 7 but at most 30 days
remain, and on every invocation when at most 7 days remain; every post goes
to the one hard-coded destination chat. -/
theorem scheduler_posting_policy (now : PyDateTime) :
    ((calculate_days_until now).1 > 30 →
      ((auto_post_countdown now).isSome ↔ now.day = 1))
    ∧ (7 < (calculate_days_until now).1 → (calculate_days_until now).1 ≤ 30 →
      ((auto_post_countdown now).isSome ↔ weekday now = 0))
    ∧ ((calculate_days_until now).1 ≤ 7 → (auto_post_countdown now).isSome)
    ∧ (∀ (c : Int) (m : String),
        auto_post_countdown now = some (c, m) → c = -4530637343) := by
  have hshow : auto_post_countdown now =
      (if (calculate_days_until now).1 > 30 then
        (if now.day = 1 then some (schedulerChatId, (calculate_days_until now).2)
         else none)
      else if (calculate_days_until now).1 > 7 then
        (if weekday now = 0 then some (schedulerChatId, (calculate_days_until now).2)
         else none)
      else some (schedulerChatId, (calculate_days_until now).2)) := rfl
  refine ⟨?_, ?_, ?_, ?_⟩
  · intro h30
    rw [hshow, if_pos h30]
    by_cases hd : now.day = 1
    · simp [hd]
    · simp [hd]
  · intro h7 h30
    rw [hshow, if_neg (by omega), if_pos h7]
    by_cases hw : weekday now = 0
    · simp [hw]
    · simp [hw]
  · intro h7
    rw [hshow, if_neg (by omega), if_neg (by omega)]
    simp
  · intro c m hcm
    rw [hshow] at hcm
    split_ifs at hcm <;> simp_all [schedulerChatId]

theorem scheduler_posting_policy_witness :
    (auto_post_countdown ⟨2026, 10, 1, 0, 0, 0⟩).isSome
    ∧ (auto_post_countdown ⟨2026, 11, 16, 0, 0, 0⟩).isSome
    ∧ (auto_post_countdown ⟨2026, 12, 10, 0, 0, 0⟩).isSome
    ∧ (-4530637343 : Int) = -4530637343 :=
  ⟨((scheduler_posting_policy ⟨2026, 10, 1, 0, 0, 0⟩).1 (by decide)).mpr (by decide),
   ((scheduler_posting_policy ⟨2026, 11, 16, 0, 0, 0⟩).2.1 (by decide) (by decide)).mpr
     (by decide),
   (scheduler_posting_policy ⟨2026, 12, 10, 0, 0, 0⟩).2.2.1 (by decide),
   (scheduler_posting_policy ⟨2026, 12, 10, 0, 0, 0⟩).2.2.2 (-4530637343)
     "The wedding is in 2 days, 0 hours, and 0 minutes!" (by decide)⟩

/-- C9: at any invocation time strictly after the wedding date,
`auto_post_countdown` posts (the negative days-remaining value fails both the
`> 30` and `> 7` guards, landing in the daily branch), and the hours and
minutes reported by the countdown stay in 0..23 and 0..59. -/
theorem post_wedding_daily_posting (now : PyDateTime)
    (h : toSecs WEDDING_DATE < toSecs now) :
    (auto_post_countdown now).isSome
    ∧ (countdown_components now).1 < 0
    ∧ 0 ≤ (countdown_components now).2.1 ∧ (countdown_components now).2.1 ≤ 23
    ∧ 0 ≤ (countdown_components now).2.2 ∧ (countdown_components now).2.2 ≤ 59 := by
  have hdiff : toSecs WEDDING_DATE - toSecs now < 0 := by omega
  have hdays : (countdown_components now).1 < 0 := by
    show (toSecs WEDDING_DATE - toSecs now).fdiv 86400 < 0
    rw [Int.fdiv_eq_ediv _ (by norm_num)]
    exact Int.ediv_neg' hdiff (by norm_num)
  have hsec0 : 0 ≤ (toSecs WEDDING_DATE - toSecs now).emod 86400 :=
    Int.emod_nonneg _ (by norm_num)
  have hsec1 : (toSecs WEDDING_DATE - toSecs now).emod 86400 < 86400 :=
    Int.emod_lt_of_pos _ (by norm_num)
  have hhour0 : 0 ≤ (countdown_components now).2.1 := by
    show 0 ≤ ((toSecs WEDDING_DATE - toSecs now).emod 86400).fdiv 3600
    rw [Int.fdiv_eq_ediv _ (by norm_num)]
    exact Int.ediv_nonneg hsec0 (by norm_num)
  have hhour1 : (countdown_components now).2.1 ≤ 23 := by
    show ((toSecs WEDDING_DATE - toSecs now).emod 86400).fdiv 3600 ≤ 23
    rw [Int.fdiv_eq_ediv _ (by norm_num)]
    have : (toSecs WEDDING_DATE - toSecs now).emod 86400 / 3600 < 24 :=
      (Int.ediv_lt_iff_lt_mul (by norm_num)).mpr (by omega)
    omega
  have hmod0 : 0 ≤ ((toSecs WEDDING_DATE - toSecs now).emod 86400).emod 3600 :=
    Int.emod_nonneg _ (by norm_num)
  have hmod1 : ((toSecs WEDDING_DATE - toSecs now).emod 86400).emod 3600 < 3600 :=
    Int.emod_lt_of_pos _ (by norm_num)
  have hmin0 : 0 ≤ (countdown_components now).2.2 := by
    show 0 ≤ (((toSecs WEDDING_DATE - toSecs now).emod 86400).emod 3600).fdiv 60
    rw [Int.fdiv_eq_ediv _ (by norm_num)]
    exact Int.ediv_nonneg hmod0 (by norm_num)
  have hmin1 : (countdown_components now).2.2 ≤ 59 := by
    show (((toSecs WEDDING_DATE - toSecs now).emod 86400).emod 3600).fdiv 60 ≤ 59
    rw [Int.fdiv_eq_ediv _ (by norm_num)]
    have : ((toSecs WEDDING_DATE - toSecs now).emod 86400).emod 3600 / 60 < 60 :=
      (Int.ediv_lt_iff_lt_mul (by norm_num)).mpr (by omega)
    omega
  have hpost : (auto_post_countdown now).isSome := by
    have hshow : auto_post_countdown now =
        (if (calculate_days_until now).1 > 30 then
          (if now.day = 1 then some (schedulerChatId, (calculate_days_until now).2)
           else none)
        else if (calculate_days_until now).1 > 7 then
          (if weekday now = 0 then some (schedulerChatId, (calculate_days_until now).2)
           else none)
        else some (schedulerChatId, (calculate_days_until now).2)) := rfl
    have hd : (calculate_days_until now).1 = (countdown_components now).1 := rfl
    rw [hshow, if_neg (by omega), if_neg (by omega)]
    simp
  exact ⟨hpost, hdays, hhour0, hhour1, hmin0, hmin1⟩

theorem post_wedding_daily_posting_witness :
    (auto_post_countdown ⟨2027, 1, 1, 8, 30, 0⟩).isSome
    ∧ (countdown_components ⟨2027, 1, 1, 8, 30, 0⟩).1 < 0
    ∧ 0 ≤ (countdown_components ⟨2027, 1, 1, 8, 30, 0⟩).2.1
    ∧ (countdown_components ⟨2027, 1, 1, 8, 30, 0⟩).2.1 ≤ 23
    ∧ 0 ≤ (countdown_components ⟨2027, 1, 1, 8, 30, 0⟩).2.2
    ∧ (countdown_components ⟨2027, 1, 1, 8, 30, 0⟩).2.2 ≤ 59 :=
  post_wedding_daily_posting ⟨2027, 1, 1, 8, 30, 0⟩ (by decide)

theorem foldl_lineStep_of_no_newline (l : List Char) (hl : '\n' ∉ l)
    (d : List (List Char)) (c : List Char) :
    List.foldl lineStep (d, c) l = (d, c ++ l) := by
  induction l generalizing c with
  | nil => simp
  | cons x xs ih =>
    have hx : ¬(x = '\n') := fun h => hl (by simp [h])
    have hxs : '\n' ∉ xs := fun h => hl (List.mem_cons_of_mem _ h)
    simp only [List.foldl_cons, lineStep, if_neg hx]
    rw [ih hxs]
    simp

theorem scanLines_append (xs ys : List Char) :
    scanLines (xs ++ ys) = List.foldl lineStep (scanLines xs) ys := by
  unfold scanLines
  rw [List.foldl_append]

theorem scanLines_append_entry (f l : List Char) (hf : lineComplete f)
    (hl : '\n' ∉ l) :
    scanLines (f ++ (l ++ ['\n'])) = ((scanLines f).1 ++ [l], []) := by
  unfold lineComplete at hf
  have h1 : scanLines f = ((scanLines f).1, []) := by
    rw [← hf]
  rw [scanLines_append, h1, List.foldl_append, foldl_lineStep_of_no_newline l hl]
  simp [lineStep]

theorem linesOf_append_entry (f l : List Char) (hf : lineComplete f)
    (hl : '\n' ∉ l) :
    linesOf (f ++ (l ++ ['\n'])) = linesOf f ++ [l]
    ∧ lineComplete (f ++ (l ++ ['\n'])) := by
  have hs := scanLines_append_entry f l hf hl
  have hf' := hf
  unfold lineComplete at hf'
  constructor
  · unfold linesOf
    rw [hs, if_pos hf']
    simp
  · unfold lineComplete
    rw [hs]

theorem addSongs_lines (subs : List (List Char × List Char)) (f : List Char)
    (hf : lineComplete f)
    (hsubs : ∀ p ∈ subs, '\n' ∉ p.1 ∧ '\n' ∉ p.2) :
    linesOf (addSongs f subs)
      = linesOf f ++ subs.map (fun p => p.1 ++ " - ".data ++ p.2)
    ∧ lineComplete (addSongs f subs) := by
  induction subs generalizing f with
  | nil => simpa using ⟨rfl, hf⟩
  | cons p rest ih =>
    obtain ⟨t, a⟩ := p
    have hp := hsubs _ (List.mem_cons_self _ _)
    have hline : '\n' ∉ t ++ " - ".data ++ a := by
      intro hmem
      rcases List.mem_append.mp hmem with hmem | hmem
      · rcases List.mem_append.mp hmem with hmem | hmem
        · exact hp.1 hmem
        · simp at hmem
      · exact hp.2 hmem
    have hentry : f ++ songEntry t a = f ++ ((t ++ " - ".data ++ a) ++ ['\n']) := by
      simp [songEntry]
    have hstep := linesOf_append_entry f (t ++ " - ".data ++ a) hf hline
    have ih' := ih (f ++ songEntry t a) (by rw [hentry]; exact hstep.2)
      (fun q hq => hsubs q (List.mem_cons_of_mem _ hq))
    constructor
    · show linesOf (addSongs (f ++ songEntry t a) rest) = _
      rw [ih'.1, hentry, hstep.1]
      simp
    · exact ih'.2

theorem addActivities_lines (xs : List (List Char)) (f : List Char)
    (hf : lineComplete f) (hxs : ∀ x ∈ xs, '\n' ∉ x) :
    linesOf (addActivities f xs) = linesOf f ++ xs
    ∧ lineComplete (addActivities f xs) := by
  induction xs generalizing f with
  | nil => simpa using ⟨rfl, hf⟩
  | cons x rest ih =>
    have hx := hxs _ (List.mem_cons_self _ _)
    have hentry : f ++ activityEntry x = f ++ (x ++ ['\n']) := rfl
    have hstep := linesOf_append_entry f x hf hx
    have ih' := ih (f ++ activityEntry x) (by rw [hentry]; exact hstep.2)
      (fun q hq => hxs q (List.mem_cons_of_mem _ hq))
    constructor
    · show linesOf (addActivities (f ++ activityEntry x) rest) = _
      rw [ih'.1, hentry, hstep.1]
      simp
    · exact ih'.2

/-- C2 counterexample: a title containing a newline makes one submission add
two lines to the song file, so the claim as stated (exactly one added line
per submission, holding its title and artist) fails. -/
theorem song_dialog_newline_counterexample :
    ¬ (linesOf (addSongs [] [("a\nb".data, "c".data)])
        = linesOf ([] : List Char)
          ++ List.map (fun p => p.1 ++ " - ".data ++ p.2)
            [("a\nb".data, "c".data)]) := by
  decide

/-- C2 (amended): for every sequence of (title, artist) pairs in which no
title or artist contains a newline, submitted through the song dialog on a
file that is empty or ends in a newline (as every file written by this system
does), the song file afterward holds exactly one additional line
`"<title> - <artist>"` per submission, in submission order, with all prior
lines unchanged. -/
theorem song_dialog_appends (f : List Char)
    (subs : List (List Char × List Char)) (hf : lineComplete f)
    (hsubs : ∀ p ∈ subs, '\n' ∉ p.1 ∧ '\n' ∉ p.2) :
    linesOf (addSongs f subs)
      = linesOf f ++ subs.map (fun p => p.1 ++ " - ".data ++ p.2) :=
  (addSongs_lines subs f hf hsubs).1

theorem song_dialog_appends_witness :
    linesOf (addSongs "x - y\n".data [("a".data, "b".data)])
      = linesOf "x - y\n".data
        ++ List.map (fun p => p.1 ++ " - ".data ++ p.2) [("a".data, "b".data)] :=
  song_dialog_appends "x - y\n".data [("a".data, "b".data)] (by decide) (by decide)

/-- C3 counterexample: an activity containing a newline makes one submission
add two lines to the activity file, so the claim as stated (exactly one added
line per submission, verbatim) fails. -/
theorem activity_dialog_newline_counterexample :
    ¬ (linesOf (addActivities [] ["p\nq".data])
        = linesOf ([] : List Char) ++ ["p\nq".data]) := by
  decide

/-- C3 (amended): for every sequence of activity texts containing no newline,
submitted through the activity dialog on a file that is empty or ends in a
newline (as every file written by this system does), the activity file gains
exactly one new line per submission, verbatim, in submission order. -/
theorem activity_dialog_appends (f : List Char) (xs : List (List Char))
    (hf : lineComplete f) (hxs : ∀ x ∈ xs, '\n' ∉ x) :
    linesOf (addActivities f xs) = linesOf f ++ xs :=
  (addActivities_lines xs f hf hxs).1

theorem activity_dialog_appends_witness :
    linesOf (addActivities "walk\n".data ["dance".data, "sing".data])
      = linesOf "walk\n".data ++ ["dance".data, "sing".data] :=
  activity_dialog_appends "walk\n".data ["dance".data, "sing".data]
    (by decide) (by decide)

theorem applyOp_extends (s : BotState) (op : Op) :
    ∃ t u, (applyOp s op).songFile = s.songFile ++ t
      ∧ (applyOp s op).activityFile = s.activityFile ++ u := by
  cases op with
  | startCmd => exact ⟨[], [], by simp [applyOp], by simp [applyOp]⟩
  | countdownCmd => exact ⟨[], [], by simp [applyOp], by simp [applyOp]⟩
  | faqCmd => exact ⟨[], [], by simp [applyOp], by simp [applyOp]⟩
  | quoteCmd => exact ⟨[], [], by simp [applyOp], by simp [applyOp]⟩
  | displayListsCmd => exact ⟨[], [], by simp [applyOp], by simp [applyOp]⟩
  | songSubmit t a => exact ⟨songEntry t a, [], rfl, by simp [applyOp]⟩
  | activitySubmit x => exact ⟨[], activityEntry x, by simp [applyOp], rfl⟩
  | textMessage => exact ⟨[], [], by simp [applyOp], by simp [applyOp]⟩
  | autoPost => exact ⟨[], [], by simp [applyOp], by simp [applyOp]⟩

/-- C8: the two list files are append-only across every reachable sequence of
operations of the system: after any sequence of handler invocations, the old
content of each file is an unchanged prefix of the new content (so no written
line is ever mutated or removed). -/
theorem files_append_only (s : BotState) (ops : List Op) :
    ∃ t u, (applyOps s ops).songFile = s.songFile ++ t
      ∧ (applyOps s ops).activityFile = s.activityFile ++ u := by
  induction ops generalizing s with
  | nil => exact ⟨[], [], by simp [applyOps], by simp [applyOps]⟩
  | cons op rest ih =>
    obtain ⟨t1, u1, ht1, hu1⟩ := applyOp_extends s op
    obtain ⟨t2, u2, ht2, hu2⟩ := ih (applyOp s op)
    refine ⟨t1 ++ t2, u1 ++ u2, ?_, ?_⟩
    · show (applyOps (applyOp s op) rest).songFile = _
      rw [ht2, ht1, List.append_assoc]
    · show (applyOps (applyOp s op) rest).activityFile = _
      rw [hu2, hu1, List.append_assoc]

/-- C4 counterexample: `display_lists` strips the file content
(`file.read().strip()`), so for a file whose content ends in a newline the
output differs from the claimed verbatim inclusion. -/
theorem display_lists_strip_counterexample :
    display_lists (some "A - B\n".data) (some "C\n".data)
      ≠ display_lists_claimed (some "A - B\n".data) (some "C\n".data) := by
  decide

/-- C4 (amended): when both files are missing or empty, `display_lists` sends
the two fixed "no X available" sentinel strings joined by the fixed
separator; when a file has content, it includes that content stripped of
leading and trailing whitespace (Python `str.strip()`), joined by the same
separator; a whitespace-only file (including non-ASCII whitespace such as a
lone no-break space) also yields the sentinel. -/
theorem display_lists_behaviour :
    display_lists none none
      = ("Song List:\nNo songs available.\n\n-----\n\n"
          ++ "Activity List:\nNo activities available.").data
    ∧ display_lists (some []) (some [])
      = ("Song List:\nNo songs available.\n\n-----\n\n"
          ++ "Activity List:\nNo activities available.").data
    ∧ display_lists (some ['\xA0']) (some ['\xA0', '\n'])
      = ("Song List:\nNo songs available.\n\n-----\n\n"
          ++ "Activity List:\nNo activities available.").data
    ∧ (∀ s a : List Char, pyStrip s ≠ [] → pyStrip a ≠ [] →
        display_lists (some s) (some a)
          = "Song List:\n".data ++ pyStrip s
            ++ "\n\n-----\n\nActivity List:\n".data ++ pyStrip a) := by
  refine ⟨by decide, by decide, by decide, ?_⟩
  intro s a hs ha
  simp [display_lists, hs, ha]

theorem display_lists_behaviour_witness :
    display_lists (some " songA \n".data) (some "actB\n".data)
      = "Song List:\n".data ++ pyStrip " songA \n".data
        ++ "\n\n-----\n\nActivity List:\n".data ++ pyStrip "actB\n".data :=
  display_lists_behaviour.2.2.2 " songA \n".data "actB\n".data
    (by decide) (by decide)

end WeddingBot
